import Mathlib

/-!
Verification development for the pangolin generic CRUD layer.

The repository has two layers:
* `CrudController` (src/unnamed/part_000): the request adapter; each of its
  six operations calls the corresponding `CrudService` operation inside a
  try/catch and, on error, either forwards the error to the `next` handler
  chain or formats it via `errorCenter`, depending on its `useNext` flag.
  That control flow, the constructor defaults, and the interfaces in
  src/src/interface.crud.ts are embedded directly from the source below.
* `CrudService` (crud.service.ts) and `errorCenter` (error.handler.ts) are
  imported by the controller but their source is not part of the reviewed
  files; the definitions below that carry a `Modelled from the spec:` doc
  comment reconstruct them from the specification's contracts.

Documents are modelled as lists of (field name, value) pairs, filters as
equality-constraint lists (the fragment of `FilterQuery` the spec uses),
and a collection (the `Model` handle of a model descriptor) as the list of
its documents.
-/

/-- A stored document: an association list of field name / value pairs. -/
abbrev Doc := List (String × String)

/-- An equality-constraint filter: a document matches when every listed
(field, value) pair occurs in it. -/
abbrev FilterQuery := List (String × String)

/-- Whether document `d` matches filter `f`. -/
def docMatches (f : FilterQuery) (d : Doc) : Bool :=
  f.all (fun kv => d.contains kv)

/-- The contents of one collection. -/
abbrev Store := List Doc

/-- Model descriptor, from src/src/interface.crud.ts: `Model` is the handle
to the target collection (modelled by its contents) and `exempt` names the
fields excluded from returned documents (the source holds them in one
space-separated projection string; here they are the list of excluded
field names). -/
structure CrudModelI where
  Model : Store
  exempt : List String
deriving DecidableEq

/-- Populate-specification entry, from src/src/interface.crud.ts
(`PopulateFieldI`): an optional related model name, an optional
space-separated list of fields of the related model to include, and an
optional second-layer populate spec. -/
structure PopulateFieldI where
  model : Option String := none
  fields : Option String := none
  second_layer_populate : Option String := none
deriving DecidableEq

/-- Uniform result envelope, from src/src/interface.crud.ts
(`CustomMessageI`). -/
structure CustomMessageI (V : Type) where
  message : String
  success_status : Bool
  data : V
  stack : Option String := none
  error : Option String := none
  doc_length : Option Nat := none
deriving DecidableEq

/-- A typed service-layer error: an HTTP-style status code and a message. -/
structure CrudError where
  status : Nat
  message : String
deriving DecidableEq

/-- Mask a document by an exempt spec: drop exactly the exempt-named
fields. -/
def maskDoc (exempt : List String) (d : Doc) : Doc :=
  d.filter (fun kv => !(exempt.contains kv.1))

/-- Modelled from the spec: `CrudService.create` (crud.service.ts is not
among the reviewed sources). Given a model descriptor, a data payload and a
duplicate-check filter, it first queries the store with the filter; if a
matching document exists it fails with a Conflict-class (409) error
"document already exists" and performs no write; otherwise it inserts the
payload and returns an envelope with success, message "Successfully
created" and the created document masked by the exempt spec. The resulting
store contents are returned alongside the outcome. -/
def CrudService.create (modelData : CrudModelI) (data : Doc) (check : FilterQuery) :
    Except CrudError (CustomMessageI Doc) × Store :=
  if modelData.Model.any (fun d => docMatches check d) then
    (.error { status := 409, message := "document already exists" }, modelData.Model)
  else
    (.ok { message := "Successfully created", success_status := true,
           data := maskDoc modelData.exempt data },
     modelData.Model ++ [data])

/-- Modelled from the spec: `CrudService.createMany` (crud.service.ts is
not among the reviewed sources). Given parallel sequences of payloads and
duplicate-check filters, it checks every filter before inserting anything;
if any check matches an existing document the whole batch fails with
Conflict and no document is inserted; otherwise all payloads are inserted
and returned masked, with `doc_length` the count inserted. -/
def CrudService.createMany (modelData : CrudModelI) (data : List Doc)
    (check : List FilterQuery) :
    Except CrudError (CustomMessageI (List Doc)) × Store :=
  if check.any (fun c => modelData.Model.any (fun d => docMatches c d)) then
    (.error { status := 409, message := "document already exists" }, modelData.Model)
  else
    (.ok { message := "Successfully created", success_status := true,
           data := data.map (maskDoc modelData.exempt),
           doc_length := some data.length },
     modelData.Model ++ data)

/-- The related collections available for populate resolution, keyed by
model name. -/
abbrev Rels := List (String × Store)

/-- Select from a related document the fields named in a populate entry's
optional space-separated field list. -/
def selectFields (fs : Option String) (d : Doc) : Doc :=
  match fs with
  | none => d
  | some s => d.filter (fun kv => (s.splitOn " ").contains kv.1)

/-- Modelled from the spec: populate resolution. The named relation is
looked up among the related collections; the document's reference field
(named after the relation) is followed to the related document whose
`_id` equals the reference; the entry's field list is applied. An unknown
or absent relation resolves to `none` rather than failing. -/
def resolvePopulate (rels : Rels) (p : PopulateFieldI) (d : Doc) : Option Doc :=
  p.model.bind (fun m =>
    (rels.lookup m).bind (fun coll =>
      (d.lookup m).bind (fun refVal =>
        (coll.find? (fun rd => rd.contains ("_id", refVal))).map
          (selectFields p.fields))))

/-- A read result: the (masked) base document together with the resolved
relation sub-documents, one entry per populate spec entry, in spec order;
an unresolved relation carries `none`. -/
structure PopulatedDoc where
  base : Doc
  relations : List (String × Option Doc)
deriving DecidableEq

/-- Resolve a whole populate spec against one document. -/
def populateAll (rels : Rels) (populate : List PopulateFieldI) (d : Doc) :
    List (String × Option Doc) :=
  populate.map (fun p => (p.model.getD "", resolvePopulate rels p d))

/-- Modelled from the spec: `CrudService.getOne` (crud.service.ts is not
among the reviewed sources). Returns the first document matching the
filter, masked by the exempt spec, with relations resolved per the
populate rules; when no document matches it returns success with absent
data (the spec's primary no-match policy). Populate entries never make the
read fail. -/
def CrudService.getOne (modelData : CrudModelI) (data : FilterQuery)
    (populate : List PopulateFieldI) (rels : Rels) :
    Except CrudError (CustomMessageI (Option PopulatedDoc)) :=
  match modelData.Model.find? (fun d => docMatches data d) with
  | none => .ok { message := "not found", success_status := true, data := none }
  | some d =>
      .ok { message := "Successfully fetched", success_status := true,
            data := some { base := maskDoc modelData.exempt d,
                           relations := populateAll rels populate d } }

/-- Pagination-relevant query parameters of `getMany`: a generic bag in the
source, reduced here to the page number and page size keys the spec
interprets. -/
structure QueryParams where
  page : Option Int := none
  limit : Option Int := none
deriving DecidableEq

/-- Modelled from the spec: page normalization — page 1 when absent, and
zero or negative values normalize to the default 1 rather than erroring. -/
def normPage (p : Option Int) : Nat :=
  match p with
  | none => 1
  | some v => if v ≤ 0 then 1 else v.toNat

/-- Modelled from the spec: page-size normalization — the fixed default 10
when absent, zero or negative. -/
def normLimit (l : Option Int) : Nat :=
  match l with
  | none => 10
  | some v => if v ≤ 0 then 10 else v.toNat

/-- Modelled from the spec: the single-descriptor read path of
`CrudService.getMany` (crud.service.ts is not among the reviewed sources).
The store is queried with the filter; the pagination window
skip = (page-1)*limit, take = limit is applied after normalization; each
returned document is masked by the exempt spec and carries its resolved
relations; `doc_length` is the number of returned documents. -/
def CrudService.getManyOne (modelData : CrudModelI) (query : QueryParams)
    (populate : List PopulateFieldI) (filter : FilterQuery) (rels : Rels) :
    CustomMessageI (List PopulatedDoc) :=
  let page := normPage query.page
  let limit := normLimit query.limit
  let docs := ((modelData.Model.filter (fun d => docMatches filter d)).drop
      ((page - 1) * limit)).take limit
  { message := "Successfully fetched", success_status := true,
    data := docs.map (fun d => { base := maskDoc modelData.exempt d,
                                 relations := populateAll rels populate d }),
    doc_length := some docs.length }

/-- Modelled from the spec: `CrudService.getMany` (crud.service.ts is not
among the reviewed sources) accepts one model descriptor or an ordered
sequence of descriptors; in the sequence case each descriptor's result is
fetched independently and the results are combined in descriptor order,
with the aggregate `doc_length` the sum over descriptors. -/
def CrudService.getMany (modelData : CrudModelI ⊕ List CrudModelI)
    (query : QueryParams) (populate : List PopulateFieldI) (filter : FilterQuery)
    (rels : Rels) : CustomMessageI (List (List PopulatedDoc)) :=
  match modelData with
  | .inl md =>
      let r := CrudService.getManyOne md query populate filter rels
      { message := "Successfully fetched", success_status := true,
        data := [r.data], doc_length := some r.data.length }
  | .inr mds =>
      let rs := mds.map (fun md => CrudService.getManyOne md query populate filter rels)
      { message := "Successfully fetched", success_status := true,
        data := rs.map (fun r => r.data),
        doc_length := some ((rs.map (fun r => r.data.length)).sum) }

/-- The environment flag, from src/unnamed/part_000 line 24:
`env: "development" | "production"`. -/
inductive Env
  | development
  | production
deriving DecidableEq

/-- Modelled from the spec: `errorCenter` (error.handler.ts is not among
the reviewed sources). It shapes any service-layer failure into a response
envelope whose stack/detail field is populated only under a non-production
environment flag; under production the detail is suppressed. -/
def errorCenter (env : Env) (error : CrudError) (stack : String) :
    CustomMessageI (Option Doc) :=
  { message := error.message, success_status := false, data := none,
    error := some error.message,
    stack := if env = Env.production then none else some stack }

/-- The adapter state relevant to error handling, from the
`CrudController` class fields (src/unnamed/part_000 lines 22-24). -/
structure CrudController where
  useNext : Bool
  env : Env
deriving DecidableEq

/-- The `CrudController` constructor (src/unnamed/part_000 lines 37-55):
`useNext` defaults to `true` and `env` defaults to `"development"` when
not supplied. -/
def CrudController.make (useNext : Option Bool) (env : Option Env) :
    CrudController :=
  { useNext := useNext.getD true, env := env.getD Env.development }

/-- Where a caught service-layer error goes in the adapter. -/
inductive ErrorHandling
  | forwardToNext
  | formatViaErrorCenter (env : Env)
deriving DecidableEq

/-- The catch block of `CrudController.create` (src/unnamed/part_000 lines
83-87): `useNext ? next(error) : errorCenter(env, error, response)`. -/
def CrudController.createOnError (c : CrudController) : ErrorHandling :=
  if c.useNext then .forwardToNext else .formatViaErrorCenter c.env

/-- The catch block of `CrudController.createMany` (src/unnamed/part_000
lines 112-116). -/
def CrudController.createManyOnError (c : CrudController) : ErrorHandling :=
  if c.useNext then .forwardToNext else .formatViaErrorCenter c.env

/-- The catch block of `CrudController.update` (src/unnamed/part_000 lines
144-148). -/
def CrudController.updateOnError (c : CrudController) : ErrorHandling :=
  if c.useNext then .forwardToNext else .formatViaErrorCenter c.env

/-- The catch block of `CrudController.getMany` (src/unnamed/part_000
lines 201-205). -/
def CrudController.getManyOnError (c : CrudController) : ErrorHandling :=
  if c.useNext then .forwardToNext else .formatViaErrorCenter c.env

/-- The catch block of `CrudController.delete` (src/unnamed/part_000 lines
237-241). -/
def CrudController.deleteOnError (c : CrudController) : ErrorHandling :=
  if c.useNext then .forwardToNext else .formatViaErrorCenter c.env

/-- The catch block of `CrudController.getOne` (src/unnamed/part_000 lines
282-284): it calls `this.next(error)` unconditionally, with no `useNext`
branch and no `errorCenter` call. -/
def CrudController.getOneOnError (_c : CrudController) : ErrorHandling :=
  .forwardToNext

/-- Auxiliary: `find?` over an appended singleton when nothing in the
prefix satisfies the predicate. -/
theorem find?_append_singleton (l : List Doc) (x : Doc) (p : Doc → Bool)
    (h : ∀ d ∈ l, p d = false) :
    (l ++ [x]).find? p = if p x then some x else none := by
  induction l with
  | nil => cases hx : p x <;> simp [List.find?, hx]
  | cons a t ih =>
      have ha : p a = false := h a (by simp)
      simp only [List.cons_append, List.find?, ha]
      exact ih (fun d hd => h d (by simp [hd]))

/-- C1: when a document matching the duplicate-check filter already exists
in the store, `create` fails with the Conflict-class (409) error
"document already exists" and the store is unchanged (no document is
inserted). -/
theorem create_conflict_no_insert (md : CrudModelI) (data : Doc)
    (check : FilterQuery) (h : ∃ d ∈ md.Model, docMatches check d = true) :
    (CrudService.create md data check).1 =
      .error { status := 409, message := "document already exists" } ∧
    (CrudService.create md data check).2 = md.Model := by
  have hav : md.Model.any (fun d => docMatches check d) = true :=
    List.any_eq_true.mpr h
  simp [CrudService.create, hav]

/-- Witness for C1 at a concrete store, payload and filter. -/
theorem create_conflict_no_insert_witness :
    (∃ d ∈ ([[("name", "John")]] : Store),
        docMatches [("name", "John")] d = true) ∧
    ((CrudService.create ⟨[[("name", "John")]], ["password"]⟩
        [("name", "John"), ("age", "30")] [("name", "John")]).1 =
      .error { status := 409, message := "document already exists" } ∧
     (CrudService.create ⟨[[("name", "John")]], ["password"]⟩
        [("name", "John"), ("age", "30")] [("name", "John")]).2 =
      [[("name", "John")]]) :=
  ⟨by decide,
   create_conflict_no_insert ⟨[[("name", "John")]], ["password"]⟩
     [("name", "John"), ("age", "30")] [("name", "John")] (by decide)⟩

/-- C3: when no document matches the duplicate-check filter, `create`
succeeds with `success_status = true`, message "Successfully created", the
payload is appended to the store, and the returned document's fields are
exactly the payload's fields minus those named in the exempt spec. -/
theorem create_success_masked (md : CrudModelI) (data : Doc)
    (check : FilterQuery) (h : ∀ d ∈ md.Model, docMatches check d = false) :
    ∃ env, (CrudService.create md data check).1 = .ok env ∧
      env.message = "Successfully created" ∧
      env.success_status = true ∧
      (∀ kv, kv ∈ env.data ↔ kv ∈ data ∧ kv.1 ∉ md.exempt) ∧
      (CrudService.create md data check).2 = md.Model ++ [data] := by
  have hav : md.Model.any (fun d => docMatches check d) = false :=
    List.any_eq_false.mpr (by simpa using h)
  refine ⟨{ message := "Successfully created", success_status := true,
            data := maskDoc md.exempt data },
    by simp [CrudService.create, hav], rfl, rfl, ?_,
    by simp [CrudService.create, hav]⟩
  intro kv
  simp [maskDoc, List.mem_filter]

/-- Witness for C3 at a concrete store, payload and exempt spec. -/
theorem create_success_masked_witness :
    (∀ d ∈ ([[("name", "Ana")]] : Store),
        docMatches [("name", "Bob")] d = false) ∧
    (∃ env, (CrudService.create ⟨[[("name", "Ana")]], ["password"]⟩
        [("name", "Bob"), ("password", "s")] [("name", "Bob")]).1 = .ok env ∧
      env.message = "Successfully created" ∧
      env.success_status = true ∧
      (∀ kv, kv ∈ env.data ↔
        kv ∈ ([("name", "Bob"), ("password", "s")] : Doc) ∧
        kv.1 ∉ ["password"]) ∧
      (CrudService.create ⟨[[("name", "Ana")]], ["password"]⟩
        [("name", "Bob"), ("password", "s")] [("name", "Bob")]).2 =
        [[("name", "Ana")]] ++ [[("name", "Bob"), ("password", "s")]]) :=
  ⟨by decide,
   create_success_masked ⟨[[("name", "Ana")]], ["password"]⟩
     [("name", "Bob"), ("password", "s")] [("name", "Bob")] (by decide)⟩

/-- C2: `createMany` is all-or-nothing with respect to duplicate
detection. With parallel payload and check sequences of the same length N:
if any check matches an existing document, the batch fails with Conflict
and the store is unchanged (zero payloads inserted); if no check matches,
all N payloads are inserted and returned masked with
`doc_length = N`. -/
theorem createMany_all_or_nothing (md : CrudModelI) (data : List Doc)
    (check : List FilterQuery) (_hN : check.length = data.length) :
    ((∃ c ∈ check, ∃ d ∈ md.Model, docMatches c d = true) →
      (CrudService.createMany md data check).1 =
        .error { status := 409, message := "document already exists" } ∧
      (CrudService.createMany md data check).2 = md.Model) ∧
    ((∀ c ∈ check, ∀ d ∈ md.Model, docMatches c d = false) →
      ∃ env, (CrudService.createMany md data check).1 = .ok env ∧
        env.success_status = true ∧
        env.data = data.map (maskDoc md.exempt) ∧
        env.doc_length = some data.length ∧
        (CrudService.createMany md data check).2 = md.Model ++ data) := by
  constructor
  · intro h
    have hav : check.any (fun c => md.Model.any (fun d => docMatches c d)) = true := by
      rw [List.any_eq_true]
      obtain ⟨c, hc, hd⟩ := h
      exact ⟨c, hc, List.any_eq_true.mpr hd⟩
    simp [CrudService.createMany, hav]
  · intro h
    have hav : check.any (fun c => md.Model.any (fun d => docMatches c d)) = false := by
      rw [List.any_eq_false]
      intro c hc
      simpa using List.any_eq_false.mpr (by simpa using h c hc)
    exact ⟨{ message := "Successfully created", success_status := true,
             data := data.map (maskDoc md.exempt),
             doc_length := some data.length },
      by simp [CrudService.createMany, hav], rfl, rfl, rfl,
      by simp [CrudService.createMany, hav]⟩

/-- Witness for C2 at concrete two-element batches, one instance per
branch of the conjunction. -/
theorem createMany_all_or_nothing_witness :
    (([[("a", "1")], [("b", "2")]] : List FilterQuery).length =
      ([[("a", "1"), ("x", "9")], [("b", "2")]] : List Doc).length) ∧
    (((∃ c ∈ ([[("a", "1")], [("b", "2")]] : List FilterQuery),
        ∃ d ∈ ([[("a", "1")]] : Store), docMatches c d = true) →
      (CrudService.createMany ⟨[[("a", "1")]], ["x"]⟩
          [[("a", "1"), ("x", "9")], [("b", "2")]]
          [[("a", "1")], [("b", "2")]]).1 =
        .error { status := 409, message := "document already exists" } ∧
      (CrudService.createMany ⟨[[("a", "1")]], ["x"]⟩
          [[("a", "1"), ("x", "9")], [("b", "2")]]
          [[("a", "1")], [("b", "2")]]).2 = [[("a", "1")]]) ∧
    ((∀ c ∈ ([[("a", "1")], [("b", "2")]] : List FilterQuery),
        ∀ d ∈ ([[("a", "1")]] : Store), docMatches c d = false) →
      ∃ env, (CrudService.createMany ⟨[[("a", "1")]], ["x"]⟩
          [[("a", "1"), ("x", "9")], [("b", "2")]]
          [[("a", "1")], [("b", "2")]]).1 = .ok env ∧
        env.success_status = true ∧
        env.data = ([[("a", "1"), ("x", "9")], [("b", "2")]] : List Doc).map
          (maskDoc ["x"]) ∧
        env.doc_length =
          some ([[("a", "1"), ("x", "9")], [("b", "2")]] : List Doc).length ∧
        (CrudService.createMany ⟨[[("a", "1")]], ["x"]⟩
          [[("a", "1"), ("x", "9")], [("b", "2")]]
          [[("a", "1")], [("b", "2")]]).2 =
          [[("a", "1")]] ++ [[("a", "1"), ("x", "9")], [("b", "2")]])) :=
  ⟨by decide,
   createMany_all_or_nothing ⟨[[("a", "1")]], ["x"]⟩
     [[("a", "1"), ("x", "9")], [("b", "2")]]
     [[("a", "1")], [("b", "2")]] (by decide)⟩

/-- C4: `getMany` called with page = 0 or a negative page returns exactly
the same result as with page = 1: invalid page values normalize to the
default instead of erroring. -/
theorem getMany_page_zero_or_negative_normalizes (md : CrudModelI)
    (q : QueryParams) (populate : List PopulateFieldI) (filter : FilterQuery)
    (rels : Rels) (p : Int) (h : p ≤ 0) :
    CrudService.getManyOne md { q with page := some p } populate filter rels =
    CrudService.getManyOne md { q with page := some 1 } populate filter rels := by
  simp [CrudService.getManyOne, normPage, h]

/-- Witness for C4 at page = -3 on a concrete store. -/
theorem getMany_page_zero_or_negative_normalizes_witness :
    ((-3 : Int) ≤ 0) ∧
    CrudService.getManyOne ⟨[[("a", "1")], [("a", "2")]], []⟩
      { page := some (-3), limit := some 1 } [] [] [] =
    CrudService.getManyOne ⟨[[("a", "1")], [("a", "2")]], []⟩
      { page := some 1, limit := some 1 } [] [] [] :=
  ⟨by decide,
   getMany_page_zero_or_negative_normalizes ⟨[[("a", "1")], [("a", "2")]], []⟩
     { page := none, limit := some 1 } [] [] [] (-3) (by decide)⟩

/-- C5: `getMany` accepts one descriptor or an ordered sequence of
descriptors; given a sequence, each descriptor's result is computed
independently by the single-descriptor read and the results are combined
in descriptor order (one entry per descriptor). -/
theorem getMany_fanout_descriptor_order (mds : List CrudModelI)
    (md : CrudModelI) (q : QueryParams) (populate : List PopulateFieldI)
    (filter : FilterQuery) (rels : Rels) :
    (CrudService.getMany (.inr mds) q populate filter rels).data =
      mds.map (fun m => (CrudService.getManyOne m q populate filter rels).data) ∧
    (CrudService.getMany (.inr mds) q populate filter rels).data.length =
      mds.length ∧
    (CrudService.getMany (.inl md) q populate filter rels).data =
      [(CrudService.getManyOne md q populate filter rels).data] := by
  simp [CrudService.getMany]

/-- C6 counterexample: the adapter's error-handling choice is not made
identically for all six operations. With `useNext = false`, `create`
formats the error via the Error Normalizer while `getOne` still forwards
it to the next-handler chain. -/
theorem adapter_policy_not_uniform_counterexample :
    CrudController.createOnError { useNext := false, env := Env.production } ≠
    CrudController.getOneOnError { useNext := false, env := Env.production } := by
  decide

/-- C6 amended: five of the six operations (create, createMany, update,
getMany, delete) share the identical policy — forward to the next-handler
chain when `useNext` is true, otherwise format via the Error Normalizer —
while `getOne` always forwards to the next-handler chain regardless of
`useNext`. -/
theorem adapter_policy_five_uniform_getOne_forwards (c : CrudController) :
    (CrudController.createOnError c =
      (if c.useNext then .forwardToNext else .formatViaErrorCenter c.env) ∧
     CrudController.createManyOnError c = CrudController.createOnError c ∧
     CrudController.updateOnError c = CrudController.createOnError c ∧
     CrudController.getManyOnError c = CrudController.createOnError c ∧
     CrudController.deleteOnError c = CrudController.createOnError c) ∧
    CrudController.getOneOnError c = .forwardToNext := by
  refine ⟨⟨rfl, rfl, rfl, rfl, rfl⟩, rfl⟩

/-- C7: for any failure, the normalized error response's stack field is
populated exactly under a non-production environment flag: the identical
failure yields `some stack` under development and `none` under
production. -/
theorem errorCenter_stack_gated_by_env (err : CrudError) (stack : String) :
    (errorCenter Env.development err stack).stack = some stack ∧
    (errorCenter Env.production err stack).stack = none ∧
    (∀ env, (errorCenter env err stack).stack ≠ none ↔ env ≠ Env.production) := by
  refine ⟨rfl, rfl, ?_⟩
  intro env
  cases env <;> simp [errorCenter]

/-- Auxiliary: a populate entry naming a relation absent from the related
collections resolves to `none`. -/
theorem resolvePopulate_unknown (rels : Rels) (p : PopulateFieldI) (d : Doc)
    (m : String) (hm : p.model = some m) (hr : rels.lookup m = none) :
    resolvePopulate rels p d = none := by
  simp [resolvePopulate, hm, hr]

/-- C8: a populate entry naming a nonexistent relation does not make
`getOne` or `getMany` fail: `getOne` still returns a success result, and
in both operations' results the entry's sub-document is absent
(`none`). -/
theorem populate_unknown_relation_nonfatal (md : CrudModelI)
    (filter : FilterQuery) (populate : List PopulateFieldI) (rels : Rels)
    (q : QueryParams) (p : PopulateFieldI) (m : String)
    (hp : p ∈ populate) (hm : p.model = some m)
    (hr : rels.lookup m = none) :
    (∃ msg, CrudService.getOne md filter populate rels = .ok msg ∧
       msg.success_status = true ∧
       ∀ pd, msg.data = some pd → (m, (none : Option Doc)) ∈ pd.relations) ∧
    ((CrudService.getManyOne md q populate filter rels).success_status = true ∧
     ∀ pd ∈ (CrudService.getManyOne md q populate filter rels).data,
       (m, (none : Option Doc)) ∈ pd.relations) := by
  have hmem : ∀ d : Doc, (m, (none : Option Doc)) ∈ populateAll rels populate d := by
    intro d
    refine List.mem_map.mpr ⟨p, hp, ?_⟩
    simp [hm, resolvePopulate_unknown rels p d m hm hr]
  constructor
  · cases hfind : md.Model.find? (fun d => docMatches filter d) with
    | none =>
        refine ⟨{ message := "not found", success_status := true, data := none },
          by simp [CrudService.getOne, hfind], rfl, ?_⟩
        intro pd hpd
        simp at hpd
    | some d =>
        refine ⟨{ message := "Successfully fetched", success_status := true,
                  data := some { base := maskDoc md.exempt d,
                                 relations := populateAll rels populate d } },
          by simp [CrudService.getOne, hfind], rfl, ?_⟩
        intro pd hpd
        have hpd2 : pd = { base := maskDoc md.exempt d,
                           relations := populateAll rels populate d } :=
          (Option.some_injective _ hpd).symm
        rw [hpd2]
        exact hmem d
  · refine ⟨rfl, ?_⟩
    intro pd hpd
    simp only [CrudService.getManyOne, List.mem_map] at hpd
    obtain ⟨d, _, hd⟩ := hpd
    rw [← hd]
    exact hmem d

/-- Witness for C8 at a concrete store, an unknown relation name and an
empty related-collection table. -/
theorem populate_unknown_relation_nonfatal_witness :
    (({ model := some "owner" } : PopulateFieldI) ∈
        ([{ model := some "owner" }] : List PopulateFieldI) ∧
     ({ model := some "owner" } : PopulateFieldI).model = some "owner" ∧
     ([] : Rels).lookup "owner" = none) ∧
    ((∃ msg, CrudService.getOne ⟨[[("name", "x")]], []⟩ [("name", "x")]
          [{ model := some "owner" }] [] = .ok msg ∧
        msg.success_status = true ∧
        ∀ pd, msg.data = some pd → ("owner", (none : Option Doc)) ∈ pd.relations) ∧
     ((CrudService.getManyOne ⟨[[("name", "x")]], []⟩ {} [{ model := some "owner" }]
          [("name", "x")] []).success_status = true ∧
      ∀ pd ∈ (CrudService.getManyOne ⟨[[("name", "x")]], []⟩ {}
          [{ model := some "owner" }] [("name", "x")] []).data,
        ("owner", (none : Option Doc)) ∈ pd.relations)) :=
  ⟨⟨by decide, by decide, by decide⟩,
   populate_unknown_relation_nonfatal ⟨[[("name", "x")]], []⟩ [("name", "x")]
     [{ model := some "owner" }] [] {} { model := some "owner" } "owner"
     (by decide) (by decide) (by decide)⟩

/-- C9: round-trip. When `create` succeeds (no existing document matches
the check filter) and the created payload itself matches the check filter,
fetching with the same filter via `getOne` from the post-create store
returns exactly the document `create` returned: the payload masked by the
exempt spec, i.e. field-for-field equality excluding exempted fields. -/
theorem create_then_getOne_roundtrip (md : CrudModelI) (data : Doc)
    (check : FilterQuery) (populate : List PopulateFieldI) (rels : Rels)
    (h1 : ∀ d ∈ md.Model, docMatches check d = false)
    (h2 : docMatches check data = true) :
    ∃ env msg,
      (CrudService.create md data check).1 = .ok env ∧
      CrudService.getOne ⟨(CrudService.create md data check).2, md.exempt⟩
        check populate rels = .ok msg ∧
      msg.data = some { base := env.data,
                        relations := populateAll rels populate data } ∧
      env.data = maskDoc md.exempt data := by
  have hav : md.Model.any (fun d => docMatches check d) = false :=
    List.any_eq_false.mpr (by simpa using h1)
  have hstore : (CrudService.create md data check).2 = md.Model ++ [data] := by
    simp [CrudService.create, hav]
  have hfind : (md.Model ++ [data]).find? (fun d => docMatches check d) =
      some data := by
    rw [find?_append_singleton md.Model data _ h1, h2]
    simp
  refine ⟨{ message := "Successfully created", success_status := true,
            data := maskDoc md.exempt data },
    { message := "Successfully fetched", success_status := true,
      data := some { base := maskDoc md.exempt data,
                     relations := populateAll rels populate data } },
    by simp [CrudService.create, hav], ?_, rfl, rfl⟩
  simp only [CrudService.getOne, hstore, hfind]

/-- Witness for C9 at a concrete store, payload, check filter and exempt
spec. -/
theorem create_then_getOne_roundtrip_witness :
    ((∀ d ∈ ([[("name", "Ana")]] : Store),
        docMatches [("name", "Bob")] d = false) ∧
     docMatches [("name", "Bob")] [("name", "Bob"), ("password", "s")] = true) ∧
    (∃ env msg,
      (CrudService.create ⟨[[("name", "Ana")]], ["password"]⟩
        [("name", "Bob"), ("password", "s")] [("name", "Bob")]).1 = .ok env ∧
      CrudService.getOne
        ⟨(CrudService.create ⟨[[("name", "Ana")]], ["password"]⟩
            [("name", "Bob"), ("password", "s")] [("name", "Bob")]).2,
         ["password"]⟩ [("name", "Bob")] [] [] = .ok msg ∧
      msg.data = some { base := env.data,
                        relations := populateAll [] []
                          [("name", "Bob"), ("password", "s")] } ∧
      env.data = maskDoc ["password"] [("name", "Bob"), ("password", "s")]) :=
  ⟨⟨by decide, by decide⟩,
   create_then_getOne_roundtrip ⟨[[("name", "Ana")]], ["password"]⟩
     [("name", "Bob"), ("password", "s")] [("name", "Bob")] [] []
     (by decide) (by decide)⟩

/-- C10: a controller constructed without explicit `useNext` or `env`
gets `useNext = true` and `env = development`; consequently every one of
the six operations forwards a caught service-layer error to the
next-handler chain, and the Error Normalizer applied at the defaulted
environment exposes full detail (populated stack) rather than the
production suppression. -/
theorem controller_defaults_forward_and_development :
    (CrudController.make none none).useNext = true ∧
    (CrudController.make none none).env = Env.development ∧
    CrudController.createOnError (CrudController.make none none) = .forwardToNext ∧
    CrudController.createManyOnError (CrudController.make none none) = .forwardToNext ∧
    CrudController.updateOnError (CrudController.make none none) = .forwardToNext ∧
    CrudController.getManyOnError (CrudController.make none none) = .forwardToNext ∧
    CrudController.deleteOnError (CrudController.make none none) = .forwardToNext ∧
    CrudController.getOneOnError (CrudController.make none none) = .forwardToNext ∧
    (∀ err stack,
      (errorCenter (CrudController.make none none).env err stack).stack =
        some stack) := by
  exact ⟨rfl, rfl, rfl, rfl, rfl, rfl, rfl, rfl, fun _ _ => rfl⟩
